import Mathlib

/-!
# Verification of the ANZ insurance/finance lead pipeline

Shallow embedding of the four pipeline stages of this repository
(`company_research.py`, `hiring_verification.py`, `contact_enrichment.py`,
`data_consolidation.py`) together with proofs about the properties the
specification states about them.  Randomised (mock) results produced by
`random.choice` / `random.random` are modelled as explicit parameters, so
every claim is settled for all possible draws.
-/

namespace ANZPipeline

/-! ## Stage 1: Collector (`company_research.py`)

A company record as produced by the static sample-data functions
(`get_sample_*`, `search_asx_companies`, `search_nzx_companies`).
Each of those functions returns a list of dicts with exactly the keys
`company_name`, `industry`, `country`, `data_source`, `company_website`. -/
structure Company where
  company_name : String
  industry : String
  country : String
  data_source : String
  company_website : String
deriving DecidableEq, Repr

/-- `search_asx_companies` (company_research.py lines 144-161). -/
def search_asx_companies : List Company := [
  ⟨"Commonwealth Bank", "Finance", "Australia", "ASX", "commbank.com.au"⟩,
  ⟨"Westpac Banking Corporation", "Finance", "Australia", "ASX", "westpac.com.au"⟩,
  ⟨"National Australia Bank", "Finance", "Australia", "ASX", "nab.com.au"⟩,
  ⟨"ANZ Banking Group", "Finance", "Australia", "ASX", "anz.com.au"⟩,
  ⟨"Macquarie Group", "Finance", "Australia", "ASX", "macquarie.com"⟩,
  ⟨"QBE Insurance Group", "Insurance", "Australia", "ASX", "qbe.com"⟩,
  ⟨"Insurance Australia Group", "Insurance", "Australia", "ASX", "iag.com.au"⟩,
  ⟨"Suncorp Group", "Both", "Australia", "ASX", "suncorp.com.au"⟩,
  ⟨"AMP Limited", "Both", "Australia", "ASX", "amp.com.au"⟩,
  ⟨"Medibank Private", "Insurance", "Australia", "ASX", "medibank.com.au"⟩]

/-- `search_nzx_companies` (company_research.py lines 163-175). -/
def search_nzx_companies : List Company := [
  ⟨"Heartland Group Holdings", "Finance", "New Zealand", "NZX", "heartland.co.nz"⟩,
  ⟨"Tower Limited", "Insurance", "New Zealand", "NZX", "tower.co.nz"⟩,
  ⟨"Westpac Banking Corporation", "Finance", "New Zealand", "NZX", "westpac.co.nz"⟩,
  ⟨"ANZ Bank New Zealand", "Finance", "New Zealand", "NZX", "anz.co.nz"⟩,
  ⟨"Kiwibank", "Finance", "New Zealand", "NZX", "kiwibank.co.nz"⟩]

/-- `get_sample_australia_finance_companies` (company_research.py lines 47-71). -/
def get_sample_australia_finance_companies : List Company := [
  ⟨"Commonwealth Bank of Australia", "Finance", "Australia", "Sample Data", "commbank.com.au"⟩,
  ⟨"Westpac Banking Corporation", "Finance", "Australia", "Sample Data", "westpac.com.au"⟩,
  ⟨"National Australia Bank", "Finance", "Australia", "Sample Data", "nab.com.au"⟩,
  ⟨"Australia and New Zealand Banking Group", "Finance", "Australia", "Sample Data", "anz.com.au"⟩,
  ⟨"Macquarie Group", "Finance", "Australia", "Sample Data", "macquarie.com"⟩,
  ⟨"Suncorp Group", "Finance", "Australia", "Sample Data", "suncorp.com.au"⟩,
  ⟨"Bank of Queensland", "Finance", "Australia", "Sample Data", "boq.com.au"⟩,
  ⟨"Bendigo and Adelaide Bank", "Finance", "Australia", "Sample Data", "bendigobank.com.au"⟩,
  ⟨"AMP Limited", "Finance", "Australia", "Sample Data", "amp.com.au"⟩,
  ⟨"Judo Bank", "Finance", "Australia", "Sample Data", "judo.bank"⟩,
  ⟨"Tyro Payments", "Finance", "Australia", "Sample Data", "tyro.com"⟩,
  ⟨"MyState Limited", "Finance", "Australia", "Sample Data", "mystate.com.au"⟩,
  ⟨"Xinja Bank", "Finance", "Australia", "Sample Data", "xinja.com.au"⟩,
  ⟨"86 400", "Finance", "Australia", "Sample Data", "86400.com.au"⟩,
  ⟨"Volt Bank", "Finance", "Australia", "Sample Data", "voltbank.com.au"⟩,
  ⟨"Heritage Bank", "Finance", "Australia", "Sample Data", "heritage.com.au"⟩,
  ⟨"Teachers Mutual Bank", "Finance", "Australia", "Sample Data", "tmbank.com.au"⟩,
  ⟨"Greater Bank", "Finance", "Australia", "Sample Data", "greater.com.au"⟩,
  ⟨"IMB Bank", "Finance", "Australia", "Sample Data", "imb.com.au"⟩,
  ⟨"Beyond Bank Australia", "Finance", "Australia", "Sample Data", "beyondbank.com.au"⟩]

/-- `get_sample_australia_insurance_companies` (company_research.py lines 74-98). -/
def get_sample_australia_insurance_companies : List Company := [
  ⟨"QBE Insurance Group", "Insurance", "Australia", "Sample Data", "qbe.com"⟩,
  ⟨"Insurance Australia Group", "Insurance", "Australia", "Sample Data", "iag.com.au"⟩,
  ⟨"Suncorp Insurance", "Insurance", "Australia", "Sample Data", "suncorp.com.au"⟩,
  ⟨"Allianz Australia", "Insurance", "Australia", "Sample Data", "allianz.com.au"⟩,
  ⟨"Youi Insurance", "Insurance", "Australia", "Sample Data", "youi.com.au"⟩,
  ⟨"Budget Direct", "Insurance", "Australia", "Sample Data", "budgetdirect.com.au"⟩,
  ⟨"AAMI Insurance", "Insurance", "Australia", "Sample Data", "aami.com.au"⟩,
  ⟨"NRMA Insurance", "Insurance", "Australia", "Sample Data", "nrma.com.au"⟩,
  ⟨"Medibank Private", "Insurance", "Australia", "Sample Data", "medibank.com.au"⟩,
  ⟨"Bupa Australia", "Insurance", "Australia", "Sample Data", "bupa.com.au"⟩,
  ⟨"HCF", "Insurance", "Australia", "Sample Data", "hcf.com.au"⟩,
  ⟨"NIB Health Funds", "Insurance", "Australia", "Sample Data", "nib.com.au"⟩,
  ⟨"AIA Australia", "Insurance", "Australia", "Sample Data", "aia.com.au"⟩,
  ⟨"TAL Life Limited", "Insurance", "Australia", "Sample Data", "tal.com.au"⟩,
  ⟨"Zurich Australia", "Insurance", "Australia", "Sample Data", "zurich.com.au"⟩,
  ⟨"MetLife Insurance Limited", "Insurance", "Australia", "Sample Data", "metlife.com.au"⟩,
  ⟨"Chubb Insurance Australia", "Insurance", "Australia", "Sample Data", "chubb.com/au"⟩,
  ⟨"RACQ Insurance", "Insurance", "Australia", "Sample Data", "racq.com.au/insurance"⟩,
  ⟨"RACV Insurance", "Insurance", "Australia", "Sample Data", "racv.com.au/insurance"⟩,
  ⟨"Hollard Insurance", "Insurance", "Australia", "Sample Data", "hollard.com.au"⟩]

/-- `get_sample_nz_finance_companies` (company_research.py lines 101-120). -/
def get_sample_nz_finance_companies : List Company := [
  ⟨"ANZ Bank New Zealand", "Finance", "New Zealand", "Sample Data", "anz.co.nz"⟩,
  ⟨"Westpac New Zealand", "Finance", "New Zealand", "Sample Data", "westpac.co.nz"⟩,
  ⟨"Bank of New Zealand", "Finance", "New Zealand", "Sample Data", "bnz.co.nz"⟩,
  ⟨"ASB Bank", "Finance", "New Zealand", "Sample Data", "asb.co.nz"⟩,
  ⟨"Kiwibank", "Finance", "New Zealand", "Sample Data", "kiwibank.co.nz"⟩,
  ⟨"TSB Bank", "Finance", "New Zealand", "Sample Data", "tsb.co.nz"⟩,
  ⟨"Heartland Bank", "Finance", "New Zealand", "Sample Data", "heartland.co.nz"⟩,
  ⟨"The Co-operative Bank", "Finance", "New Zealand", "Sample Data", "co-operativebank.co.nz"⟩,
  ⟨"SBS Bank", "Finance", "New Zealand", "Sample Data", "sbsbank.co.nz"⟩,
  ⟨"Rabobank New Zealand", "Finance", "New Zealand", "Sample Data", "rabobank.co.nz"⟩,
  ⟨"HSBC New Zealand", "Finance", "New Zealand", "Sample Data", "hsbc.co.nz"⟩,
  ⟨"China Construction Bank NZ", "Finance", "New Zealand", "Sample Data", "nz.ccb.com"⟩,
  ⟨"Industrial and Commercial Bank of China NZ", "Finance", "New Zealand", "Sample Data", "icbcnz.com"⟩,
  ⟨"Bank of China New Zealand", "Finance", "New Zealand", "Sample Data", "bankofchina.com/nz"⟩,
  ⟨"Credit Union Baywide", "Finance", "New Zealand", "Sample Data", "nzcubaywide.co.nz"⟩]

/-- `get_sample_nz_insurance_companies` (company_research.py lines 123-142). -/
def get_sample_nz_insurance_companies : List Company := [
  ⟨"AA Insurance", "Insurance", "New Zealand", "Sample Data", "aainsurance.co.nz"⟩,
  ⟨"Tower Insurance", "Insurance", "New Zealand", "Sample Data", "tower.co.nz"⟩,
  ⟨"IAG New Zealand", "Insurance", "New Zealand", "Sample Data", "iag.co.nz"⟩,
  ⟨"FMG Insurance", "Insurance", "New Zealand", "Sample Data", "fmg.co.nz"⟩,
  ⟨"AMI Insurance", "Insurance", "New Zealand", "Sample Data", "ami.co.nz"⟩,
  ⟨"State Insurance", "Insurance", "New Zealand", "Sample Data", "state.co.nz"⟩,
  ⟨"Medical Assurance Society", "Insurance", "New Zealand", "Sample Data", "mas.co.nz"⟩,
  ⟨"Vero Insurance", "Insurance", "New Zealand", "Sample Data", "vero.co.nz"⟩,
  ⟨"Southern Cross Health Society", "Insurance", "New Zealand", "Sample Data", "southerncross.co.nz"⟩,
  ⟨"AIA New Zealand", "Insurance", "New Zealand", "Sample Data", "aia.co.nz"⟩,
  ⟨"Partners Life", "Insurance", "New Zealand", "Sample Data", "partnerslife.co.nz"⟩,
  ⟨"Fidelity Life", "Insurance", "New Zealand", "Sample Data", "fidelitylife.co.nz"⟩,
  ⟨"Cigna Life Insurance", "Insurance", "New Zealand", "Sample Data", "cigna.co.nz"⟩,
  ⟨"Asteron Life", "Insurance", "New Zealand", "Sample Data", "asteronlife.co.nz"⟩,
  ⟨"Accuro Health Insurance", "Insurance", "New Zealand", "Sample Data", "accuro.co.nz"⟩]

/-- `all_companies` as accumulated in `main` (company_research.py lines 236-244):
the six static lists concatenated in the order the `extend` calls are made. -/
def all_companies : List Company :=
  search_asx_companies ++ search_nzx_companies ++
  get_sample_australia_finance_companies ++ get_sample_australia_insurance_companies ++
  get_sample_nz_finance_companies ++ get_sample_nz_insurance_companies

/-- A collected record together with the id the Collector assigned to it. -/
structure IdCompany where
  company_id : Nat
  base : Company
deriving DecidableEq, Repr

/-- `collected_df['company_id'] = range(1, len(collected_df) + 1)`
(company_research.py line 253): position `i` (0-based) gets id `i + 1`. -/
def assign_company_ids (l : List Company) : List IdCompany :=
  ((List.range l.length).zip l).map fun p => ⟨p.1 + 1, p.2⟩

/-- `collected_df.drop_duplicates(subset=['company_name'])`
(company_research.py line 262): keep a row iff its `company_name` did not
occur in an earlier row (pandas `keep='first'` default). -/
def drop_duplicates_by_name : List String → List IdCompany → List IdCompany
  | _, [] => []
  | seen, c :: rest =>
      if seen.contains c.base.company_name then
        drop_duplicates_by_name seen rest
      else
        c :: drop_duplicates_by_name (c.base.company_name :: seen) rest

/-- The Collector's processed output (company_research.py lines 252-262):
ids are assigned to the raw concatenated list first, duplicates by
`company_name` are dropped afterwards. -/
def collector_processed : List IdCompany :=
  drop_duplicates_by_name [] (assign_company_ids all_companies)

/-- The ids appearing in the Collector's processed output. -/
def processed_ids : List Nat := collector_processed.map (·.company_id)

/-! ## Stage 2: Status Checker (`hiring_verification.py`)

`verify_hiring_status` (lines 325-388) processes each entity row by
querying up to three sources.  Each source (`check_company_careers_page`,
`check_linkedin_jobs`, `check_seek_jobs`) returns a dict
`{'has_devops': bool, 'has_software_dev': bool, 'source': url-or-None}`;
in mock mode the booleans are independent coin flips, so they are modelled
here as arbitrary inputs. -/
structure SourceResult where
  has_devops : Bool
  has_software_dev : Bool
  src_url : Option String
deriving DecidableEq, Repr

/-- The per-entity mutable columns touched by the Status Checker loop. -/
structure HiringState where
  hiring_devops : String
  hiring_developers : String
  actively_hiring : String
  devops_source : Option String
  software_dev_source : Option String
deriving DecidableEq, Repr

/-- First source check of the loop body (hiring_verification.py lines
344-351): gated on the entity having a website; sets a flag to `"Yes"`
whenever the careers-page result reports the role. -/
def apply_careers_check (company_url : Option String) (r : SourceResult)
    (st : HiringState) : HiringState :=
  match company_url with
  | none => st
  | some _ =>
      let st1 := if r.has_devops then
        { st with hiring_devops := "Yes", devops_source := r.src_url } else st
      if r.has_software_dev then
        { st1 with hiring_developers := "Yes", software_dev_source := r.src_url } else st1

/-- Second source check (hiring_verification.py lines 354-361): runs only
when at least one flag is still not `"Yes"`, and only upgrades flags that
are not `"Yes"` yet. -/
def apply_linkedin_check (r : SourceResult) (st : HiringState) : HiringState :=
  if st.hiring_devops ≠ "Yes" ∨ st.hiring_developers ≠ "Yes" then
    let st1 := if r.has_devops ∧ st.hiring_devops ≠ "Yes" then
      { st with hiring_devops := "Yes", devops_source := r.src_url } else st
    if r.has_software_dev ∧ st1.hiring_developers ≠ "Yes" then
      { st1 with hiring_developers := "Yes", software_dev_source := r.src_url } else st1
  else st

/-- Third source check (hiring_verification.py lines 364-371): same
structure as the LinkedIn check. -/
def apply_seek_check (r : SourceResult) (st : HiringState) : HiringState :=
  if st.hiring_devops ≠ "Yes" ∨ st.hiring_developers ≠ "Yes" then
    let st1 := if r.has_devops ∧ st.hiring_devops ≠ "Yes" then
      { st with hiring_devops := "Yes", devops_source := r.src_url } else st
    if r.has_software_dev ∧ st1.hiring_developers ≠ "Yes" then
      { st1 with hiring_developers := "Yes", software_dev_source := r.src_url } else st1
  else st

/-- Fill-in step (hiring_verification.py lines 374-383): any flag still not
`"Yes"` is set to `"No"`, and `actively_hiring` becomes the OR of the two
role flags. -/
def finalize_flags (st : HiringState) : HiringState :=
  let st1 := if st.hiring_devops ≠ "Yes" then
    { st with hiring_devops := "No" } else st
  let st2 := if st1.hiring_developers ≠ "Yes" then
    { st1 with hiring_developers := "No" } else st1
  if st2.hiring_devops = "Yes" ∨ st2.hiring_developers = "Yes" then
    { st2 with actively_hiring := "Yes" }
  else
    { st2 with actively_hiring := "No" }

/-- The whole loop body of `verify_hiring_status` for one entity. -/
def verify_entity (company_url : Option String)
    (careers linkedin seek : SourceResult) (st : HiringState) : HiringState :=
  finalize_flags (apply_seek_check seek
    (apply_linkedin_check linkedin (apply_careers_check company_url careers st)))

/-! ## Stage 3: Contact Finder (`contact_enrichment.py`) -/

/-- An entity row as read by the Contact Finder from
`companies_hiring_verified.xlsx`.  Nullable spreadsheet columns are
`Option`s; `company_size` / `annual_revenue` carry the numeric sort key. -/
structure VerifiedCompany where
  company_id : Nat
  company_name : String
  company_website : Option String
  linkedin_url : Option String
  actively_hiring : String
  hiring_devops : String
  hiring_developers : String
  company_size : Option Int
  annual_revenue : Option Int
deriving DecidableEq, Repr

/-- The row predicate of `filter_actively_hiring_companies`
(contact_enrichment.py lines 26-29). -/
def is_actively_hiring_row (r : VerifiedCompany) : Bool :=
  r.actively_hiring == "Yes" &&
    (r.hiring_devops == "Yes" || r.hiring_developers == "Yes")

/-- Embedding of `DataFrame.sort_values(key_column, ascending=False)` on a
nullable numeric column: rows with a key are sorted descending by the key
and rows without one are appended at the end (pandas `na_position='last'`).
pandas' default `kind='quicksort'` leaves the relative order of equal keys
unspecified; every theorem proved about a use of this function depends only
on membership, never on the order among equal keys, so the choice of
`List.insertionSort` here is immaterial. -/
def pandas_sort_desc_by (k : VerifiedCompany → Option Int)
    (l : List VerifiedCompany) : List VerifiedCompany :=
  (List.insertionSort (fun a b => (k a).getD 0 ≤ (k b).getD 0)
      (l.filter fun a => (k a).isSome)).reverse ++
    l.filter fun a => (k a).isNone

/-- `filter_actively_hiring_companies` (contact_enrichment.py lines 24-42):
filter to actively-hiring rows; if fewer than 100 qualify return them all,
otherwise sort by `company_size` (or `annual_revenue`) descending when the
column is not entirely null and keep the first 100. -/
def filter_actively_hiring_companies (df : List VerifiedCompany) :
    List VerifiedCompany :=
  if (df.filter is_actively_hiring_row).length < 100 then
    df.filter is_actively_hiring_row
  else
    List.take 100
      (if (df.filter is_actively_hiring_row).any (fun r => r.company_size.isSome) then
        pandas_sort_desc_by (fun r => r.company_size) (df.filter is_actively_hiring_row)
      else if (df.filter is_actively_hiring_row).any (fun r => r.annual_revenue.isSome) then
        pandas_sort_desc_by (fun r => r.annual_revenue) (df.filter is_actively_hiring_row)
      else df.filter is_actively_hiring_row)

/-- A candidate person produced by one of the two executive finders
(`find_linkedin_executives`, `find_company_executives`); both return dicts
with `name`, `title`, `source` and possibly `linkedin_url`.  Both finders
draw on `random.choice` in mock mode, so their outputs are modelled as
arbitrary lists. -/
structure Candidate where
  name : String
  title : String
  src_label : String
  linkedin_url : Option String
deriving DecidableEq, Repr

/-- The candidate union of `enrich_contacts` (contact_enrichment.py lines
402-408): all LinkedIn candidates, plus every website candidate whose
lowercased name does not occur among the lowercased LinkedIn names. -/
def combine_candidates (linkedin_execs website_execs : List Candidate) :
    List Candidate :=
  linkedin_execs ++ website_execs.filter fun e =>
    !(linkedin_execs.map fun x => x.name.toLower).contains e.name.toLower

/-- The placeholder record inserted when no candidate was found
(contact_enrichment.py lines 411-416). -/
def placeholder_candidate : Candidate :=
  ⟨"Technology Decision Maker", "CTO or equivalent",
    "Placeholder - requires manual research", none⟩

/-- `if not all_execs: all_execs.append(...)` (contact_enrichment.py lines
411-416). -/
def with_placeholder (all_execs : List Candidate) : List Candidate :=
  if all_execs.isEmpty then [placeholder_candidate] else all_execs

/-- Whitespace tokenizer over a character list: accumulates the current
token (reversed) in `acc` and emits it at each space / at the end,
dropping empty tokens. -/
def tokenize_spaces : List Char → List Char → List String
  | [], acc => if acc.isEmpty then [] else [String.mk acc.reverse]
  | ch :: cs, acc =>
      if ch = ' ' then
        if acc.isEmpty then tokenize_spaces cs []
        else String.mk acc.reverse :: tokenize_spaces cs []
      else tokenize_spaces cs (ch :: acc)

/-- Python's `str.split()` on the candidate name (contact_enrichment.py
line 433): split on runs of whitespace (spaces, for the names occurring
here), dropping empty tokens. -/
def name_tokens (s : String) : List String :=
  tokenize_spaces s.toList []

/-- The per-candidate guard of the row-producing loop (contact_enrichment.py
lines 425-436): a contact row is appended iff the candidate's name is not
the literal `"Unknown"` and splits into at least two tokens.  The contents
of the appended row (email, phone, verification label) involve further
random draws and are not needed by any claim. -/
def produces_contact_row (e : Candidate) : Bool :=
  e.name != "Unknown" && decide (2 ≤ (name_tokens e.name).length)

/-- The candidates for which `enrich_contacts` appends a contact row for
one entity, given the two finder outputs. -/
def contact_candidates_for_company (linkedin_execs website_execs : List Candidate) :
    List Candidate :=
  (with_placeholder (combine_candidates linkedin_execs website_execs)).filter
    produces_contact_row

/-- `generate_email` (contact_enrichment.py lines 310-335).  A `none`
pattern (or the empty string, which is falsy in Python) selects the default
`first.last` shape.  Python's `first[0]` / `last[0]` raise `IndexError` on
an empty lowered name; that partiality is modelled by returning `none`. -/
def generate_email (first_name last_name domain : String)
    (pattern : Option String) : Option String :=
  let patt :=
    match pattern with
    | none => "first.last@" ++ domain
    | some p => if p = "" then "first.last@" ++ domain else p
  let first := first_name.toLower
  let last := last_name.toLower
  if patt = "first.last@" ++ domain then
    some (first ++ "." ++ last ++ "@" ++ domain)
  else if patt = "firstlast@" ++ domain then
    some (first ++ last ++ "@" ++ domain)
  else if patt = "first_last@" ++ domain then
    some (first ++ "_" ++ last ++ "@" ++ domain)
  else if patt = "flast@" ++ domain then
    if first = "" then none else some (first.take 1 ++ last ++ "@" ++ domain)
  else if patt = "first.l@" ++ domain then
    if last = "" then none else some (first ++ "." ++ last.take 1 ++ "@" ++ domain)
  else if patt = "f.last@" ++ domain then
    if first = "" then none else some (first.take 1 ++ "." ++ last ++ "@" ++ domain)
  else
    some (first ++ "." ++ last ++ "@" ++ domain)

/-! ## Stage 4: Consolidator (`data_consolidation.py`) -/

/-- An entity row as read by the Consolidator from
`top_hiring_companies.xlsx`.  All spreadsheet columns are nullable, so the
fields checked by `pd.isna` are `Option`s. -/
structure CompanyRow where
  company_id : Nat
  company_name : Option String
  industry : Option String
  country : Option String
  company_size : Option Int
  company_website : Option String
  linkedin_url : Option String
  hiring_devops : String
  hiring_developers : String
deriving DecidableEq, Repr

/-- A contact row as read from `executives_contacts.xlsx`. -/
structure ExecContact where
  company_id : Nat
  executive_name : String
  executive_title : String
  linkedin_url : Option String
  email : Option String
  phone : Option String
deriving DecidableEq, Repr

/-- A row of the merged frame built by `pd.merge(companies_df,
executives_df, on='company_id', how='left')` (data_consolidation.py lines
54-59).  The two `linkedin_url` columns are suffixed `_x` / `_y` by pandas.
(`prepare_final_dataset` also adds a cleaned-name display column and
renames columns for presentation; those steps do not affect the join or the
derived scores and are outside the verified fragment.) -/
structure MergedRow where
  company_id : Nat
  company_name : Option String
  industry : Option String
  country : Option String
  company_size : Option Int
  company_website : Option String
  linkedin_url_x : Option String
  hiring_devops : String
  hiring_developers : String
  executive_name : Option String
  executive_title : Option String
  linkedin_url_y : Option String
  email : Option String
  phone : Option String
deriving DecidableEq, Repr

/-- The merged row for an entity joined to one matching contact. -/
def merged_of_match (c : CompanyRow) (e : ExecContact) : MergedRow :=
  { company_id := c.company_id, company_name := c.company_name,
    industry := c.industry, country := c.country,
    company_size := c.company_size, company_website := c.company_website,
    linkedin_url_x := c.linkedin_url,
    hiring_devops := c.hiring_devops, hiring_developers := c.hiring_developers,
    executive_name := some e.executive_name,
    executive_title := some e.executive_title,
    linkedin_url_y := e.linkedin_url, email := e.email, phone := e.phone }

/-- The merged row for an entity with no matching contact: pandas fills the
right-hand columns with `NaN`. -/
def merged_unmatched (c : CompanyRow) : MergedRow :=
  { company_id := c.company_id, company_name := c.company_name,
    industry := c.industry, country := c.country,
    company_size := c.company_size, company_website := c.company_website,
    linkedin_url_x := c.linkedin_url,
    hiring_devops := c.hiring_devops, hiring_developers := c.hiring_developers,
    executive_name := none, executive_title := none,
    linkedin_url_y := none, email := none, phone := none }

/-- `pd.merge(..., on='company_id', how='left')` (data_consolidation.py
lines 54-59): every left row is kept; a row with matching contacts yields
one merged row per match, a row with none yields a single `NaN`-filled
merged row. -/
def merge_block (contacts : List ExecContact) (c : CompanyRow) : List MergedRow :=
  let ms := contacts.filter fun e => e.company_id == c.company_id
  if ms.isEmpty then [merged_unmatched c] else ms.map (merged_of_match c)

/-- The merged frame: one block of rows per left-hand entity row. -/
def merge_left_on_company_id (companies : List CompanyRow)
    (contacts : List ExecContact) : List MergedRow :=
  companies.flatMap (merge_block contacts)

/-- `calculate_quality` score accumulation (data_consolidation.py lines
68-89): seven presence checks, one point each. -/
def calculate_quality_score (r : MergedRow) : Nat :=
  (if r.company_name.isSome && r.industry.isSome && r.country.isSome then 1 else 0) +
  (if r.company_website.isSome && r.linkedin_url_x.isSome then 1 else 0) +
  (if r.executive_name.isSome then 1 else 0) +
  (if r.executive_title.isSome then 1 else 0) +
  (if r.linkedin_url_y.isSome then 1 else 0) +
  (if r.email.isSome then 1 else 0) +
  (if r.phone.isSome then 1 else 0)

/-- Star rendering of `calculate_quality` (data_consolidation.py lines
91-95): `'★' * score + '☆' * (5 - score)`.  Python's `str * n` is the
empty string for negative `n`, which coincides with truncated `Nat`
subtraction. -/
def data_quality_stars (r : MergedRow) : String :=
  ⟨List.replicate (calculate_quality_score r) '★' ++
    List.replicate (5 - calculate_quality_score r) '☆'⟩

/-- `score_opportunity` (data_consolidation.py lines 339-372), on the
merged row (the columns are the renamed ones; the `'...' in row` membership
tests are always true because the columns exist).  The
`float(str(size).replace(',',''))` parse of `Company Size` is modelled by
carrying the size as a number directly; the `except: pass` branch is
unreachable in that model. -/
def score_opportunity (r : MergedRow) : Nat :=
  (if r.hiring_devops = "Yes" ∧ r.hiring_developers = "Yes" then 3
   else if r.hiring_devops = "Yes" ∨ r.hiring_developers = "Yes" then 1
   else 0) +
  (if r.executive_name.isSome then 1 else 0) +
  (if r.email.isSome then 2 else 0) +
  (if r.phone.isSome then 2 else 0) +
  (match r.company_size with
   | some size =>
       if size > 10000 then 3 else if size > 1000 then 2
       else if size > 100 then 1 else 0
   | none => 0)

/-- The note fragments accumulated by `create_opportunity_note`
(data_consolidation.py lines 378-405), in source order. -/
def opportunity_note_fragments (r : MergedRow) : List String :=
  (if r.hiring_devops = "Yes" ∧ r.hiring_developers = "Yes" then
    ["Actively hiring for both DevOps and Software Developer roles"]
   else if r.hiring_devops = "Yes" then ["Currently seeking DevOps talent"]
   else if r.hiring_developers = "Yes" then
    ["Actively recruiting Software Developers"]
   else []) ++
  (if r.email.isSome ∧ r.phone.isSome then
    ["Complete C-level contact information available"]
   else if r.email.isSome then
    ["Direct email contact available for decision maker"]
   else []) ++
  (match r.company_size with
   | some size =>
       if size > 5000 then ["Major enterprise with significant IT needs"]
       else if size > 1000 then ["Large company with established IT department"]
       else []
   | none => [])

/-- `create_opportunity_note` (data_consolidation.py line 405):
`"; ".join(notes) if notes else "Standard opportunity"`. -/
def create_opportunity_note (r : MergedRow) : String :=
  let notes := opportunity_note_fragments r
  if notes.isEmpty then "Standard opportunity"
  else String.intercalate "; " notes

/-- The spec example row for the opportunity scoring: entity id 7
"Suncorp Group" with both hiring flags `"Yes"`, joined to the contact
Jane Doe with email `jane.doe@suncorp.com.au` and phone
`+61 7 1234 5678`; no company size is recorded. -/
def suncorp_example_row : MergedRow :=
  { company_id := 7, company_name := some "Suncorp Group",
    industry := some "Both", country := some "Australia",
    company_size := none, company_website := some "suncorp.com.au",
    linkedin_url_x := some "https://www.linkedin.com/company/suncorp-group",
    hiring_devops := "Yes", hiring_developers := "Yes",
    executive_name := some "Jane Doe", executive_title := some "CTO",
    linkedin_url_y := some "https://www.linkedin.com/in/jane-doe-12345",
    email := some "jane.doe@suncorp.com.au",
    phone := some "+61 7 1234 5678" }

/-- Observable outcome of `main` in `data_consolidation.py` (lines
579-626): the entire body runs inside one `try`; `except Exception`
prints the error, imports `traceback` and calls `traceback.print_exc()`.
The handler neither re-raises nor writes to any file, so the outcome
records no propagated exception, a printed stack trace, and an empty list
of log-file writes. -/
structure ConsolidationOutcome where
  raised : Bool
  printed_trace : Bool
  log_writes : List String
deriving DecidableEq, Repr

/-- `main` of `data_consolidation.py` as a function of whether its body
(loading, preparing, and saving the workbook) succeeds or raises. -/
def consolidation_main_outcome (body : Except String Unit) : ConsolidationOutcome :=
  match body with
  | Except.ok _ => { raised := false, printed_trace := false, log_writes := [] }
  | Except.error _ => { raised := false, printed_trace := true, log_writes := [] }

/-! ### Concrete sample inputs used to instantiate the theorems -/

/-- A company row with complete basic data and no size information. -/
def sample_company_row : CompanyRow :=
  { company_id := 1, company_name := some "Judo Bank",
    industry := some "Finance", country := some "Australia",
    company_size := none, company_website := some "judo.bank",
    linkedin_url := some "https://www.linkedin.com/company/judo-bank",
    hiring_devops := "No", hiring_developers := "Yes" }

/-- A company row with no matching contact in the demo contact table. -/
def orphan_company_row : CompanyRow :=
  { company_id := 2, company_name := some "Tower Limited",
    industry := some "Insurance", country := some "New Zealand",
    company_size := none, company_website := some "tower.co.nz",
    linkedin_url := none,
    hiring_devops := "Yes", hiring_developers := "No" }

/-- A contact row matching `sample_company_row`. -/
def jane_doe_contact : ExecContact :=
  { company_id := 1, executive_name := "Jane Doe", executive_title := "CTO",
    linkedin_url := some "https://www.linkedin.com/in/jane-doe-12345",
    email := some "jane.doe@judo.bank", phone := none }

/-- Demo entity table for the join. -/
def join_demo_companies : List CompanyRow := [sample_company_row, orphan_company_row]

/-- Demo contact table for the join. -/
def join_demo_contacts : List ExecContact := [jane_doe_contact]

/-- A candidate whose extracted name is the literal `"Unknown"` (the
fallback name that the real-scraping branch of `find_linkedin_executives`
produces when no name can be parsed, contact_enrichment.py line 133). -/
def unknown_candidate : Candidate :=
  ⟨"Unknown", "Technology Executive", "LinkedIn via Google", none⟩

/-- Demo input table for the Contact Finder pre-filter. -/
def hiring_demo_df : List VerifiedCompany :=
  [{ company_id := 1, company_name := "Judo Bank",
     company_website := some "judo.bank", linkedin_url := none,
     actively_hiring := "Yes", hiring_devops := "No",
     hiring_developers := "Yes", company_size := none, annual_revenue := none },
   { company_id := 2, company_name := "Tower Limited",
     company_website := some "tower.co.nz", linkedin_url := none,
     actively_hiring := "No", hiring_devops := "No",
     hiring_developers := "No", company_size := none, annual_revenue := none }]

/-- Boolean strict-increasingness check for a list of naturals (auxiliary,
used to state computable facts about the Collector's id sequence). -/
def strictlyIncreasing : List Nat → Bool
  | [] => true
  | [_] => true
  | a :: b :: rest => decide (a < b) && strictlyIncreasing (b :: rest)

/-! ## Theorems -/

/-- Auxiliary: the Boolean check `strictlyIncreasing` implies `List.Chain'`. -/
theorem chain'_lt_of_strictlyIncreasing :
    ∀ l : List Nat, strictlyIncreasing l = true → List.Chain' (· < ·) l
  | [], _ => List.chain'_nil
  | [a], _ => List.chain'_singleton a
  | a :: b :: rest, h => by
      simp only [strictlyIncreasing, Bool.and_eq_true, decide_eq_true_eq] at h
      exact List.chain'_cons.mpr
        ⟨h.1, chain'_lt_of_strictlyIncreasing (b :: rest) h.2⟩

/-- C1, counterexample.  The claim says the entity ids in the Collector's
processed output form a contiguous `1..N` sequence after deduplication by
company name.  On the actual run this is false: `main` assigns
`company_id = range(1, len+1)` to the raw 85-row concatenation *before*
`drop_duplicates(subset=['company_name'])`, so the 74 surviving rows keep
their pre-dedup ids and the sequence has gaps — id 13 (the NZX duplicate of
"Westpac Banking Corporation") is absent while ids 12 and 14 survive. -/
theorem C1_counterexample :
    processed_ids.length = 74 ∧ 13 ∉ processed_ids ∧ 14 ∈ processed_ids ∧
    processed_ids ≠ List.range' 1 74 := by
  decide

/-- C1, amended.  The ids in the Collector's processed output are assigned
`1..85` in concatenated list order *before* dedup; dedup keeps the first
occurrence of each name, so the surviving ids are pairwise distinct,
strictly increasing, start at 1 and are bounded by 85, but are not
contiguous. -/
theorem C1_ids_unique_increasing_bounded :
    List.Chain' (· < ·) processed_ids ∧ processed_ids.Nodup ∧
    processed_ids.head? = some 1 ∧
    (∀ i ∈ processed_ids, 1 ≤ i ∧ i ≤ 85) := by
  have hchain : List.Chain' (· < ·) processed_ids :=
    chain'_lt_of_strictlyIncreasing _ (by decide)
  refine ⟨hchain, ?_, by decide, by decide⟩
  exact (List.chain'_iff_pairwise.mp hchain).imp fun hlt => Nat.ne_of_lt hlt

/-- C2, counterexample.  The claim says the data-quality score is in the
range 0 to 5 and is rendered as exactly five star glyphs.  The code sums
*seven* presence checks, so a fully populated row scores 7 and its star
string has seven filled glyphs and length 7, not 5. -/
theorem C2_counterexample :
    calculate_quality_score suncorp_example_row = 7 ∧
    ¬ calculate_quality_score suncorp_example_row ≤ 5 ∧
    (data_quality_stars suncorp_example_row).length = 7 ∧
    (data_quality_stars suncorp_example_row).length ≠ 5 := by
  decide

/-- C2, amended.  The quality score is the number of passed checks among
seven presence checks, hence at most 7; the rendering is `score` filled
stars followed by `5 - score` (truncated at zero) empty stars, so the
string has `max score 5` glyphs, exactly `score` of them filled, and it
has exactly five glyphs precisely when the score is at most 5. -/
theorem C2_quality_score_and_stars (r : MergedRow) :
    calculate_quality_score r ≤ 7 ∧
    (data_quality_stars r).length = max (calculate_quality_score r) 5 ∧
    (data_quality_stars r).toList.count '★' = calculate_quality_score r ∧
    (data_quality_stars r).toList.count '☆' = 5 - calculate_quality_score r ∧
    (calculate_quality_score r ≤ 5 → (data_quality_stars r).length = 5) := by
  have hb : calculate_quality_score r ≤ 7 := by
    unfold calculate_quality_score
    split_ifs <;> decide
  have hlen : (data_quality_stars r).length =
      max (calculate_quality_score r) 5 := by
    simp only [data_quality_stars, String.length, List.length_append,
      List.length_replicate]
    omega
  refine ⟨hb, hlen, ?_, ?_, fun h5 => by omega⟩
  · simp [data_quality_stars, String.toList, List.count_append,
      List.count_replicate]
  · simp [data_quality_stars, String.toList, List.count_append,
      List.count_replicate]

/-- C2 witness: a contact-less row passes every hypothesis and renders as
exactly five glyphs. -/
theorem C2_quality_score_and_stars_witness :
    calculate_quality_score (merged_unmatched sample_company_row) ≤ 5 ∧
    (data_quality_stars (merged_unmatched sample_company_row)).length = 5 :=
  ⟨by decide,
    (C2_quality_score_and_stars (merged_unmatched sample_company_row)).2.2.2.2
      (by decide)⟩

/-- C3, counterexample.  The claim says the spec example row (both hiring
flags `"Yes"`, contact with email and phone) scores opportunity 3.  The
code awards +3 for both roles, +1 for the contact name, +2 for the email
and +2 for the phone: the score is 8, not 3. -/
theorem C3_counterexample :
    score_opportunity suncorp_example_row = 8 ∧
    score_opportunity suncorp_example_row ≠ 3 := by
  decide

/-- C3, amended.  The spec example row scores opportunity 8
(+3 both roles, +1 contact name, +2 email, +2 phone, no size points), and
its opportunity note contains both required fragments. -/
theorem C3_example_score_and_note :
    score_opportunity suncorp_example_row = 8 ∧
    create_opportunity_note suncorp_example_row =
      "Actively hiring for both DevOps and Software Developer roles; " ++
      "Complete C-level contact information available" ∧
    (∃ pre post, create_opportunity_note suncorp_example_row =
      pre ++ "Actively hiring for both DevOps and Software Developer roles" ++ post) ∧
    (∃ pre post, create_opportunity_note suncorp_example_row =
      pre ++ "Complete C-level contact information available" ++ post) := by
  refine ⟨by decide, by decide, ⟨"", "; Complete C-level contact information available", ?_⟩,
    ⟨"Actively hiring for both DevOps and Software Developer roles; ", "", ?_⟩⟩
  · decide
  · decide

/-- C8, counterexample.  The claim says a failure of the final
consolidation step is caught, a stack trace is printed, and the error is
also appended to a text log file.  The `except` block of `main`
(data_consolidation.py lines 623-626) prints and calls
`traceback.print_exc()` but performs no file write at all, so the list of
log-file writes is empty. -/
theorem C8_counterexample :
    consolidation_main_outcome (Except.error "ValueError: boom") =
      { raised := false, printed_trace := true, log_writes := [] } ∧
    (consolidation_main_outcome (Except.error "ValueError: boom")).log_writes = [] :=
  ⟨rfl, rfl⟩

/-- C8, amended.  Whenever the consolidation body raises, the exception is
caught (not re-raised) and a stack trace is printed, but no log file is
written — the only error-log write in the pipeline happens in the
Collector, not here. -/
theorem C8_exception_caught_no_log (e : String) :
    consolidation_main_outcome (Except.error e) =
      { raised := false, printed_trace := true, log_writes := [] } :=
  rfl

/-- C9.  `generate_email` reads no ambient state (no `random` use in
contact_enrichment.py lines 310-335): it is a pure function of first name,
last name, domain and pattern, so two calls with identical inputs return
the identical result. -/
theorem C9_generate_email_deterministic (first_name last_name domain : String)
    (pattern : Option String) :
    generate_email first_name last_name domain pattern =
      generate_email first_name last_name domain pattern :=
  rfl

/-- C7.  For any outputs of the two executive finders: if the
deduplicated union is empty, the entity yields exactly one placeholder
record, whose title is `"CTO or equivalent"` and whose name is
`"Technology Decision Maker"` (the placeholder name has three tokens, so
the row-producing loop does emit it); and if the union consists of a
single candidate named `"Unknown"`, the loop emits no contact row. -/
theorem C7_placeholder_and_unknown (linkedin_execs website_execs : List Candidate) :
    (combine_candidates linkedin_execs website_execs = [] →
      contact_candidates_for_company linkedin_execs website_execs =
        [placeholder_candidate] ∧
      placeholder_candidate.title = "CTO or equivalent" ∧
      placeholder_candidate.name = "Technology Decision Maker") ∧
    (∀ c : Candidate, combine_candidates linkedin_execs website_execs = [c] →
      c.name = "Unknown" →
      contact_candidates_for_company linkedin_execs website_execs = []) := by
  constructor
  · intro h
    refine ⟨?_, rfl, rfl⟩
    unfold contact_candidates_for_company with_placeholder
    rw [h]
    decide
  · intro c h hn
    unfold contact_candidates_for_company with_placeholder
    rw [h]
    simp [List.filter, produces_contact_row, hn]

/-- C7 witness: no candidates at all yields exactly the placeholder; a
lone `"Unknown"` candidate yields nothing. -/
theorem C7_placeholder_and_unknown_witness :
    contact_candidates_for_company [] [] = [placeholder_candidate] ∧
    contact_candidates_for_company [unknown_candidate] [] = [] :=
  ⟨((C7_placeholder_and_unknown [] []).1 rfl).1,
    (C7_placeholder_and_unknown [unknown_candidate] []).2 unknown_candidate rfl rfl⟩

/-- Auxiliary: the Seek check has the same body as the LinkedIn check. -/
theorem apply_seek_check_eq_linkedin : apply_seek_check = apply_linkedin_check :=
  rfl

/-- Auxiliary: the LinkedIn/Seek check never downgrades a `"Yes"` devops
flag. -/
theorem linkedin_preserves_devops_yes (r : SourceResult) (st : HiringState)
    (h : st.hiring_devops = "Yes") :
    (apply_linkedin_check r st).hiring_devops = "Yes" := by
  simp only [apply_linkedin_check]
  split_ifs <;> simp_all

/-- Auxiliary: the LinkedIn/Seek check never downgrades a `"Yes"`
developers flag. -/
theorem linkedin_preserves_developers_yes (r : SourceResult) (st : HiringState)
    (h : st.hiring_developers = "Yes") :
    (apply_linkedin_check r st).hiring_developers = "Yes" := by
  simp only [apply_linkedin_check]
  split_ifs <;> simp_all

/-- Auxiliary: the fill-in step never downgrades a `"Yes"` devops flag. -/
theorem finalize_preserves_devops_yes (st : HiringState)
    (h : st.hiring_devops = "Yes") :
    (finalize_flags st).hiring_devops = "Yes" := by
  simp only [finalize_flags]
  split_ifs <;> simp_all

/-- Auxiliary: the fill-in step never downgrades a `"Yes"` developers
flag. -/
theorem finalize_preserves_developers_yes (st : HiringState)
    (h : st.hiring_developers = "Yes") :
    (finalize_flags st).hiring_developers = "Yes" := by
  simp only [finalize_flags]
  split_ifs <;> simp_all

/-- C5.  For every entity and every combination of source results: once a
role hiring flag is `"Yes"` after the careers-page check, after the
LinkedIn check, or after the Seek check, it is still `"Yes"` in the final
state produced by the fill-in step — no later source check and not the
fill-in step ever sets it back to `"No"`. -/
theorem C5_hiring_flags_monotone (url : Option String)
    (c l s : SourceResult) (st : HiringState) :
    ((apply_careers_check url c st).hiring_devops = "Yes" →
      (verify_entity url c l s st).hiring_devops = "Yes") ∧
    ((apply_linkedin_check l (apply_careers_check url c st)).hiring_devops = "Yes" →
      (verify_entity url c l s st).hiring_devops = "Yes") ∧
    ((apply_seek_check s (apply_linkedin_check l
        (apply_careers_check url c st))).hiring_devops = "Yes" →
      (verify_entity url c l s st).hiring_devops = "Yes") ∧
    ((apply_careers_check url c st).hiring_developers = "Yes" →
      (verify_entity url c l s st).hiring_developers = "Yes") ∧
    ((apply_linkedin_check l (apply_careers_check url c st)).hiring_developers = "Yes" →
      (verify_entity url c l s st).hiring_developers = "Yes") ∧
    ((apply_seek_check s (apply_linkedin_check l
        (apply_careers_check url c st))).hiring_developers = "Yes" →
      (verify_entity url c l s st).hiring_developers = "Yes") := by
  have hseek := apply_seek_check_eq_linkedin
  refine ⟨fun h1 => ?_, fun h2 => ?_, fun h3 => ?_,
    fun h1 => ?_, fun h2 => ?_, fun h3 => ?_⟩
  · exact finalize_preserves_devops_yes _ (by
      rw [hseek]
      exact linkedin_preserves_devops_yes _ _
        (linkedin_preserves_devops_yes _ _ h1))
  · exact finalize_preserves_devops_yes _ (by
      rw [hseek]
      exact linkedin_preserves_devops_yes _ _ h2)
  · exact finalize_preserves_devops_yes _ h3
  · exact finalize_preserves_developers_yes _ (by
      rw [hseek]
      exact linkedin_preserves_developers_yes _ _
        (linkedin_preserves_developers_yes _ _ h1))
  · exact finalize_preserves_developers_yes _ (by
      rw [hseek]
      exact linkedin_preserves_developers_yes _ _ h2)
  · exact finalize_preserves_developers_yes _ h3

/-- C5 witness: an entity whose careers-page check reports both roles
keeps both flags `"Yes"` through the remaining checks and the fill-in,
for an arbitrary choice of the later (negative) source results. -/
theorem C5_hiring_flags_monotone_witness :
    (verify_entity (some "https://judo.bank") ⟨true, true, some "https://judo.bank/careers"⟩
      ⟨false, false, none⟩ ⟨false, false, none⟩
      ⟨"Unknown", "Unknown", "Unknown", none, none⟩).hiring_devops = "Yes" ∧
    (verify_entity (some "https://judo.bank") ⟨true, true, some "https://judo.bank/careers"⟩
      ⟨false, false, none⟩ ⟨false, false, none⟩
      ⟨"Unknown", "Unknown", "Unknown", none, none⟩).hiring_developers = "Yes" :=
  ⟨(C5_hiring_flags_monotone (some "https://judo.bank")
      ⟨true, true, some "https://judo.bank/careers"⟩ ⟨false, false, none⟩
      ⟨false, false, none⟩ ⟨"Unknown", "Unknown", "Unknown", none, none⟩).1 rfl,
   (C5_hiring_flags_monotone (some "https://judo.bank")
      ⟨true, true, some "https://judo.bank/careers"⟩ ⟨false, false, none⟩
      ⟨false, false, none⟩ ⟨"Unknown", "Unknown", "Unknown", none, none⟩).2.2.2.1 rfl⟩

/-- Auxiliary: every row in an entity's join block carries that entity's
id. -/
theorem company_id_of_mem_merge_block (contacts : List ExecContact)
    (c : CompanyRow) (r : MergedRow) (h : r ∈ merge_block contacts c) :
    r.company_id = c.company_id := by
  by_cases he : (contacts.filter fun e => e.company_id == c.company_id).isEmpty
  · simp [merge_block, he] at h
    subst h
    rfl
  · simp [merge_block, he] at h
    obtain ⟨e, -, rfl⟩ := h
    rfl

/-- Auxiliary: a join block is never empty (left rows are always kept). -/
theorem merge_block_ne_nil (contacts : List ExecContact) (c : CompanyRow) :
    merge_block contacts c ≠ [] := by
  by_cases he : (contacts.filter fun e => e.company_id == c.company_id).isEmpty
  · simp [merge_block, he]
  · simp only [merge_block, he, if_neg, Bool.not_eq_true, List.map_eq_nil_iff]
    simp only [List.isEmpty_iff] at he
    simp [he]

/-- Auxiliary: with pairwise-distinct entity ids, the merged rows carrying
the id of an entity with no matching contact are exactly the single
`NaN`-filled row of that entity. -/
theorem filter_merge_of_no_match :
    ∀ (companies : List CompanyRow) (contacts : List ExecContact)
      (c : CompanyRow),
      (companies.map fun x => x.company_id).Nodup → c ∈ companies →
      contacts.filter (fun e => e.company_id == c.company_id) = [] →
      (merge_left_on_company_id companies contacts).filter
        (fun r => r.company_id == c.company_id) = [merged_unmatched c]
  | [], _, c, _, hc, _ => absurd hc (List.not_mem_nil c)
  | c0 :: rest, contacts, c, hnodup, hc, hempty => by
      simp only [List.map_cons, List.nodup_cons, List.mem_map] at hnodup
      obtain ⟨hnotin, hnodup'⟩ := hnodup
      rw [merge_left_on_company_id, List.flatMap_cons, List.filter_append]
      rcases List.mem_cons.mp hc with rfl | hcrest
      · have hblock : merge_block contacts c = [merged_unmatched c] := by
          rw [merge_block, hempty]
          rfl
        have hrest : (rest.flatMap (merge_block contacts)).filter
            (fun r => r.company_id == c.company_id) = [] := by
          rw [List.filter_eq_nil_iff]
          intro r hr
          obtain ⟨c', hc', hrblk⟩ := List.mem_flatMap.mp hr
          have hid := company_id_of_mem_merge_block contacts c' r hrblk
          have hne : c'.company_id ≠ c.company_id := fun heq =>
            hnotin ⟨c', hc', heq⟩
          simp [hid, hne]
        rw [hblock, hrest, List.append_nil]
        simp [merged_unmatched]
      · have hzero : (merge_block contacts c0).filter
            (fun r => r.company_id == c.company_id) = [] := by
          rw [List.filter_eq_nil_iff]
          intro r hr
          have hid := company_id_of_mem_merge_block contacts c0 r hr
          have hne : c0.company_id ≠ c.company_id := fun heq =>
            hnotin ⟨c, hcrest, heq.symm⟩
          simp [hid, hne]
        rw [hzero, List.nil_append]
        exact filter_merge_of_no_match rest contacts c hnodup' hcrest hempty

/-- C6.  The Consolidator's merge of the entity and contact tables on
`company_id` is a left outer join: every entity row contributes at least
one merged row with its id, the `NaN`-filled row of an unmatched entity
has all five contact columns null, and — when entity ids are pairwise
distinct — an entity with zero matching contacts contributes exactly one
merged row, the `NaN`-filled one. -/
theorem C6_left_outer_join (companies : List CompanyRow)
    (contacts : List ExecContact) :
    (∀ c ∈ companies, ∃ r ∈ merge_left_on_company_id companies contacts,
      r.company_id = c.company_id) ∧
    (∀ c : CompanyRow, (merged_unmatched c).executive_name = none ∧
      (merged_unmatched c).executive_title = none ∧
      (merged_unmatched c).linkedin_url_y = none ∧
      (merged_unmatched c).email = none ∧ (merged_unmatched c).phone = none) ∧
    ((companies.map fun x => x.company_id).Nodup →
      ∀ c ∈ companies,
        contacts.filter (fun e => e.company_id == c.company_id) = [] →
        (merge_left_on_company_id companies contacts).filter
          (fun r => r.company_id == c.company_id) = [merged_unmatched c]) := by
  refine ⟨?_, fun c => ⟨rfl, rfl, rfl, rfl, rfl⟩,
    fun hnodup c hc hempty =>
      filter_merge_of_no_match companies contacts c hnodup hc hempty⟩
  intro c hc
  obtain ⟨r, hr⟩ :=
    List.exists_mem_of_ne_nil _ (merge_block_ne_nil contacts c)
  exact ⟨r, List.mem_flatMap.mpr ⟨c, hc, hr⟩,
    company_id_of_mem_merge_block contacts c r hr⟩

/-- C6 witness: in the demo tables, the contact-less entity (id 2) still
appears in the merged frame, exactly once, with null contact fields. -/
theorem C6_left_outer_join_witness :
    (∃ r ∈ merge_left_on_company_id join_demo_companies join_demo_contacts,
      r.company_id = orphan_company_row.company_id) ∧
    (merge_left_on_company_id join_demo_companies join_demo_contacts).filter
      (fun r => r.company_id == orphan_company_row.company_id) =
      [merged_unmatched orphan_company_row] :=
  ⟨(C6_left_outer_join join_demo_companies join_demo_contacts).1
      orphan_company_row (by decide),
    (C6_left_outer_join join_demo_companies join_demo_contacts).2.2
      (by decide) orphan_company_row (by decide) (by decide)⟩

/-- Auxiliary: the pandas descending sort only permutes its input. -/
theorem mem_of_mem_pandas_sort_desc_by (k : VerifiedCompany → Option Int)
    (l : List VerifiedCompany) (a : VerifiedCompany)
    (h : a ∈ pandas_sort_desc_by k l) : a ∈ l := by
  rcases List.mem_append.mp h with h1 | h2
  · exact (List.mem_filter.mp
      ((List.mem_insertionSort _).mp (List.mem_reverse.mp h1))).1
  · exact (List.mem_filter.mp h2).1

/-- C10.  The Contact Finder's pre-filter returns at most 100 rows; every
returned row is actively hiring with at least one role flag `"Yes"`; and
when fewer than 100 rows qualify, the output is exactly the list of
qualifying rows. -/
theorem C10_prefilter_bounds (df : List VerifiedCompany) :
    (filter_actively_hiring_companies df).length ≤ 100 ∧
    (∀ r ∈ filter_actively_hiring_companies df,
      r.actively_hiring = "Yes" ∧
      (r.hiring_devops = "Yes" ∨ r.hiring_developers = "Yes")) ∧
    ((df.filter is_actively_hiring_row).length < 100 →
      filter_actively_hiring_companies df = df.filter is_actively_hiring_row) := by
  have hpred : ∀ r : VerifiedCompany, is_actively_hiring_row r = true →
      r.actively_hiring = "Yes" ∧
      (r.hiring_devops = "Yes" ∨ r.hiring_developers = "Yes") := by
    intro r hr
    simpa [is_actively_hiring_row] using hr
  by_cases hlt : (df.filter is_actively_hiring_row).length < 100
  · rw [filter_actively_hiring_companies, if_pos hlt]
    exact ⟨Nat.le_of_lt hlt,
      fun r hr => hpred r (List.mem_filter.mp hr).2, fun _ => rfl⟩
  · rw [filter_actively_hiring_companies, if_neg hlt]
    refine ⟨?_, ?_, fun hcon => absurd hcon hlt⟩
    · simp
    · intro r hr
      have hmem := (List.take_sublist 100 _).mem hr
      have hf : r ∈ df.filter is_actively_hiring_row := by
        split_ifs at hmem with h1 h2
        · exact mem_of_mem_pandas_sort_desc_by _ _ _ hmem
        · exact mem_of_mem_pandas_sort_desc_by _ _ _ hmem
        · exact hmem
      exact hpred r (List.mem_filter.mp hf).2

/-- C10 witness: on the demo table only one of the two rows qualifies, and
the pre-filter returns exactly that row. -/
theorem C10_prefilter_bounds_witness :
    filter_actively_hiring_companies hiring_demo_df =
      hiring_demo_df.filter is_actively_hiring_row ∧
    (filter_actively_hiring_companies hiring_demo_df).length ≤ 100 :=
  ⟨(C10_prefilter_bounds hiring_demo_df).2.2 (by decide),
    (C10_prefilter_bounds hiring_demo_df).1⟩

end ANZPipeline
